import Mathlib

/-!
Verification of the WeatherLink Live (WLL) WeeWX driver (`bin/user/wll.py`)
against its natural-language specification.

Shallow embedding conventions:
* JSON numeric values are modelled as rationals (`ℚ`); a JSON `null` value is
  `Option.none`.  A field of a JSON object is therefore a pair
  `String × Option ℚ`, and a JSON object (a Python dict) is an association
  list `Fields` whose lookup returns `none` when the key is absent,
  `some none` when the key is present with value `null`, and `some (some q)`
  when it is present with the number `q`.
* The driver's loop packet (a Python dict built by successive
  `_packet.update` calls) is also a `Fields` value; updates prepend and
  lookup takes the most recent binding, which models dict overwriting.
* Python exceptions raised while a cycle's conditions are being processed
  (KeyError, TypeError, NameError) are modelled with `Except`; the error
  payload is the driver state at the moment the exception is raised, because
  the source mutates `self.last_rain_storm` / `self.last_rain_storm_start_at`
  in place and those mutations survive an aborted cycle.
-/

namespace WLL

/-- JSON value of a field: `none` is JSON `null`, `some q` the number `q`. -/
abbrev JVal := Option ℚ

/-- A JSON object / Python dict: association list from key to value. -/
abbrev Fields := List (String × JVal)

/-- Dict lookup: `none` = key absent (Python `k in d` false), `some v` = key
present with value `v` (where `v = none` models a JSON `null`). -/
def lookupField (k : String) : Fields → Option JVal
  | [] => none
  | (k', v) :: rest => if k = k' then some v else lookupField k rest

/-- Model of `_packet.update({dst: v})`: prepend, so that the most recent
binding wins on lookup. -/
def updateField (p : Fields) (dst : String) (v : JVal) : Fields :=
  (dst, v) :: p

/-- Conversion constant `MM_TO_INCH = 0.0393701` (wll.py line 37). -/
def MM_TO_INCH : ℚ := 393701 / 10000000

/-- Mutable driver attributes that survive across cycles:
`self.last_rain_storm`, `self.last_rain_storm_start_at` (wll.py lines
113-114, updated at 219-220) and the function-scoped local
`rain_count_size` (assigned at lines 187-197; `none` models "never
assigned", in which case using it raises NameError). -/
structure DriverState where
  last_rain_storm : Option ℚ
  last_rain_storm_start_at : Option ℚ
  rain_count_size : Option ℚ
deriving DecidableEq, Repr

/-- State right after `WLL.__init__` (wll.py lines 113-114): both
precipitation attributes are `None`, `rain_count_size` unassigned. -/
def initState : DriverState := ⟨none, none, none⟩

/-- Rain-collector multiplier chain (wll.py lines 187-197).  Returns `none`
when no branch assigns (`rain_collector_type` inside `[1,4]` but equal to
none of 1, 2, 3, 4). -/
def rainCountSizeFor (rs : ℚ) : Option ℚ :=
  if rs = 1 then some (1/100)                      -- 0.01
  else if rs = 2 then some (2/10 * MM_TO_INCH)     -- 0.2 * MM_TO_INCH
  else if rs = 3 then some (1/10)                  -- 0.1
  else if rs = 4 then some (1/1000 * MM_TO_INCH)   -- 0.001 * MM_TO_INCH
  else none

/-- Field map of the type-1 (ISS) passthrough block before the rain
handling (wll.py lines 154-179): source key to packet key. -/
def type1Fields : List (String × String) :=
  [("temp", "outTemp"), ("hum", "outHumidity"), ("dew_point", "dewpoint"),
   ("heat_index", "heatindex"), ("wind_chill", "windchill"),
   ("wind_speed_last", "windSpeed"), ("wind_dir_last", "windDir"),
   ("wind_speed_hi_last_10_min", "windGust"),
   ("wind_dir_scalar_avg_last_10_min", "windGustDir")]

/-- Field map of the type-1 passthrough block after the rain handling
(wll.py lines 224-231). -/
def type1PostRainFields : List (String × String) :=
  [("solar_rad", "radiation"), ("uv_index", "UV"),
   ("trans_battery_flag", "txBatteryStatus")]

/-- Field map of the type-2 (leaf/soil) block (wll.py lines 236-264).
Note line 252 of the source: `moist_soil_2` is written to packet key
`soilMoist3`, the same key that `moist_soil_3` is written to at line 255. -/
def type2Fields : List (String × String) :=
  [("temp_1", "soilTemp1"), ("temp_2", "soilTemp2"), ("temp_3", "soilTemp3"),
   ("temp_4", "soilTemp4"), ("moist_soil_1", "soilMoist1"),
   ("moist_soil_2", "soilMoist3"), ("moist_soil_3", "soilMoist3"),
   ("moist_soil_4", "soilMoist4"), ("wet_leaf_1", "leafWet1"),
   ("wet_leaf_2", "leafWet2")]

/-- Field map of the type-3 (barometric) block (wll.py lines 269-273). -/
def type3Fields : List (String × String) :=
  [("bar_sea_level", "barometer"), ("bar_absolute", "pressure")]

/-- Field map of the type-4 (inside conditions) block (wll.py lines
278-285). -/
def type4Fields : List (String × String) :=
  [("temp_in", "inTemp"), ("hum_in", "inHumidity"),
   ("dew_point_in", "inDewpoint")]

/-- Model of one `if src in condition: _packet.update({dst: condition[src]})`
statement. -/
def passField (c : Fields) (src dst : String) (p : Fields) : Fields :=
  match lookupField src c with
  | none => p
  | some v => updateField p dst v

/-- Sequential application of the passthrough statements of one block, in
source order. -/
def passFields (c : Fields) (maps : List (String × String)) (p : Fields) : Fields :=
  maps.foldl (fun acc sd => passField c sd.1 sd.2 acc) p

/-- Model of wll.py lines 199-200: `rainRate` update.  A present-but-null
`rain_rate_last` raises TypeError in `float(None)`; a numeric value with
`rain_count_size` never assigned raises NameError.  Both abort the cycle
with the state unchanged. -/
def rainRatePart (c : Fields) (st : DriverState) (p : Fields) :
    Except DriverState Fields :=
  match lookupField "rain_rate_last" c with
  | none => .ok p
  | some none => .error st
  | some (some r) =>
    match st.rain_count_size with
    | none => .error st
    | some m => .ok (updateField p "rainRate" (some (r * m)))

/-- Model of wll.py lines 209-217: computation of the local `rain_count`.
The result is `Option ℚ` because the new-storm branch (line 214) copies the
raw `rain_storm` value, which may be JSON `null`; the comparison at line
216 raises TypeError when `rain_storm` is `null` — before the state update
at lines 219-220, so the error carries the unchanged state. -/
def rainCountE (st : DriverState) (rain_storm rain_storm_start_at : JVal) :
    Except DriverState (Option ℚ) :=
  if st.last_rain_storm.isSome ∧ st.last_rain_storm_start_at.isSome then
    if rain_storm_start_at ≠ st.last_rain_storm_start_at then
      .ok rain_storm
    else
      match rain_storm, st.last_rain_storm with
      | none, _ => .error st
      | some s, some l => if l ≤ s then .ok (some (s - l)) else .ok (some 0)
      | some _, none => .ok (some 0)
  else .ok (some 0)

/-- Model of wll.py lines 202-222: the storm-delta block.  The state update
of lines 219-220 happens before the multiplication of line 222, so the
multiplication's TypeError (`rain_count` null) and NameError
(`rain_count_size` never assigned) leave the state already advanced. -/
def rainStormPart (c : Fields) (st : DriverState) (p : Fields) :
    Except DriverState (Fields × DriverState) :=
  match lookupField "rain_storm" c, lookupField "rain_storm_start_at" c with
  | some rain_storm, some rain_storm_start_at =>
    match rainCountE st rain_storm rain_storm_start_at with
    | .error stE => .error stE
    | .ok rain_count =>
      match rain_count, st.rain_count_size with
      | none, _ =>
        .error { st with last_rain_storm := rain_storm,
                         last_rain_storm_start_at := rain_storm_start_at }
      | some _, none =>
        .error { st with last_rain_storm := rain_storm,
                         last_rain_storm_start_at := rain_storm_start_at }
      | some rc, some m =>
        .ok (updateField p "rain" (some (rc * m)),
             { st with last_rain_storm := rain_storm,
                       last_rain_storm_start_at := rain_storm_start_at })
  | _, _ => .ok (p, st)

/-- Assignment of the `rain_count_size` local by the chain of wll.py lines
187-197: when `rain_size` is exactly 1, 2, 3 or 4 the local is (re)assigned,
otherwise it keeps its previous value. -/
def resolveCountSize (st : DriverState) (rs : ℚ) : DriverState :=
  match rainCountSizeFor rs with
  | some m => { st with rain_count_size := some m }
  | none => st

/-- Sequencing of the rain-rate update (lines 199-200) and the storm block
(lines 202-222) with the already-resolved state. -/
def rainBlockCore (c : Fields) (st1 : DriverState) (p : Fields) :
    Except DriverState (Fields × DriverState) :=
  match rainRatePart c st1 p with
  | .error stE => .error stE
  | .ok p1 => rainStormPart c st1 p1

/-- Model of the whole rain-collector block, wll.py lines 181-222.  A
present-but-null `rain_size` raises TypeError at line 185 (`1 <= None`). -/
def rainBlock (c : Fields) (st : DriverState) (p : Fields) :
    Except DriverState (Fields × DriverState) :=
  match lookupField "rain_size" c with
  | none => .ok (p, st)
  | some none => .error st
  | some (some rs) =>
    if 1 ≤ rs ∧ rs ≤ 4 then rainBlockCore c (resolveCountSize st rs) p
    else .ok (p, st)

/-- Model of the type-1 branch, wll.py lines 152-231. -/
def processType1 (c : Fields) (st : DriverState) (p : Fields) :
    Except DriverState (Fields × DriverState) :=
  match rainBlock c st (passFields c type1Fields p) with
  | .error st' => .error st'
  | .ok (p1, st') => .ok (passFields c type1PostRainFields p1, st')

/-- Model of one iteration of the loop over the conditions list
(wll.py lines 147-285).  A missing `data_structure_type` key raises
KeyError (line 149), aborting the cycle; an unrecognized (or null)
discriminant value matches no branch and leaves packet and state
untouched. -/
def processCondition (st : DriverState) (p : Fields) (c : Fields) :
    Except DriverState (Fields × DriverState) :=
  match lookupField "data_structure_type" c with
  | none => .error st
  | some v =>
    if v = some 1 then processType1 c st p
    else if v = some 2 then .ok (passFields c type2Fields p, st)
    else if v = some 3 then .ok (passFields c type3Fields p, st)
    else if v = some 4 then .ok (passFields c type4Fields p, st)
    else .ok (p, st)

/-- Sequential processing of the whole `conditions` list; an exception in
one record aborts the rest of the cycle while keeping the state mutations
already applied. -/
def processConditions (st : DriverState) (p : Fields) :
    List Fields → Except DriverState (Fields × DriverState)
  | [] => .ok (p, st)
  | c :: rest =>
    match processCondition st p c with
    | .ok (p', st') => processConditions st' p' rest
    | .error st' => .error st'

/-- Value of `weewx.US`, the unit-system tag put into every packet. -/
def weewxUS : ℚ := 1

/-- Packet skeleton of wll.py lines 142-145: `dateTime` and `usUnits`. -/
def initPacket (ts : ℚ) : Fields :=
  [("usUnits", some weewxUS), ("dateTime", some ts)]

/-- Parse outcome of `response.json()` plus the extraction of the `ts`
timestamp and the conditions list from the `data` object (wll.py lines
138-147): `malformed` models malformed JSON or missing top-level
structure, which raises before any condition record is processed. -/
inductive RawDoc
  | malformed
  | wellFormed (ts : ℚ) (conditions : List Fields)

/-- Result of the `requests.get` call of one cycle (wll.py line 127):
either a transport-level failure (the inner `except` at lines 129-136) or a
response payload handed to the JSON parsing stage. -/
inductive FetchResult
  | transportFailure
  | payload (doc : RawDoc)

/-- Observable outcome of one iteration of the `while True` loop: the
yielded packet if any, the driver state afterwards, and the argument of the
`time.sleep` call ending the iteration. -/
structure CycleResult where
  emitted : Option Fields
  state : DriverState
  sleepSeconds : ℚ
deriving DecidableEq, Repr

/-- One iteration of the `while True` loop (wll.py lines 121-298): a
transport failure sleeps 2 seconds and yields nothing (lines 129-136); a
parse failure — malformed document or an exception while processing the
conditions — sleeps the poll interval and yields nothing (lines 291-298); a
successful cycle yields the packet and sleeps the poll interval (lines
287-289). -/
def runCycle (poll_interval : ℚ) (st : DriverState) (f : FetchResult) :
    CycleResult :=
  match f with
  | .transportFailure => ⟨none, st, 2⟩
  | .payload .malformed => ⟨none, st, poll_interval⟩
  | .payload (.wellFormed ts conds) =>
    match processConditions st (initPacket ts) conds with
    | .ok (p, st') => ⟨some p, st', poll_interval⟩
    | .error st' => ⟨none, st', poll_interval⟩

/-- The polling loop run over a finite prefix of fetch outcomes: every
outcome gives exactly one cycle, the state threads through. -/
def runLoop (poll_interval : ℚ) (st : DriverState) :
    List FetchResult → List CycleResult
  | [] => []
  | f :: rest =>
    let r := runCycle poll_interval st f
    r :: runLoop poll_interval r.state rest

/-- Storm-delta function extracted from wll.py lines 209-217: the delta in
raw counts produced for a non-null observation `(s, t)` given the stored
`(last_rain_storm, last_rain_storm_start_at)`. -/
def stormDelta (last_rain_storm last_rain_storm_start_at : Option ℚ)
    (s t : ℚ) : ℚ :=
  match last_rain_storm, last_rain_storm_start_at with
  | some l, some lt => if t ≠ lt then s else if l ≤ s then s - l else 0
  | _, _ => 0

/-- Storm-delta algorithm iterated over a sequence of non-null
`(total, startTime)` observations, threading the state updates of wll.py
lines 219-220. -/
def runStorm (lrs lrssa : Option ℚ) : List (ℚ × ℚ) → List ℚ
  | [] => []
  | (s, t) :: rest => stormDelta lrs lrssa s t :: runStorm (some s) (some t) rest

/-- All passthrough map entries of the four recognized record types. -/
def allFieldMaps : List (String × String) :=
  type1Fields ++ type1PostRainFields ++ type2Fields ++ type3Fields ++ type4Fields

/-- Input keys whose presence can make the driver write packet key `k`:
the passthrough sources mapping to `k`, plus the rain-derived keys. -/
def inputKeysFor (k : String) : List String :=
  ((allFieldMaps.filter (fun sd => sd.2 == k)).map (fun sd => sd.1)) ++
    (if k = "rainRate" then ["rain_rate_last"] else []) ++
    (if k = "rain" then ["rain_storm"] else [])

/-- Discriminant values the dispatch chain of wll.py lines 152-276
recognizes. -/
def recognizedType (v : JVal) : Prop :=
  v = some 1 ∨ v = some 2 ∨ v = some 3 ∨ v = some 4

instance (v : JVal) : Decidable (recognizedType v) := by
  unfold recognizedType
  infer_instance

/-- Filter keeping exactly the condition records that do NOT carry an
unrecognized discriminant value (records with a missing discriminant are
kept: they raise KeyError rather than being skipped). -/
def keepCondition (c : Fields) : Bool :=
  match lookupField "data_structure_type" c with
  | none => true
  | some v => decide (recognizedType v)

/-- Passthrough map entries the driver applies for discriminant `ty`, in
source order. -/
def mapsForType (ty : ℚ) : List (String × String) :=
  if ty = 1 then type1Fields ++ type1PostRainFields
  else if ty = 2 then type2Fields
  else if ty = 3 then type3Fields
  else if ty = 4 then type4Fields
  else []

/-! ### Generic lemmas about lookups and the passthrough blocks -/

@[simp] theorem lookupField_nil (k : String) : lookupField k [] = none := rfl

@[simp] theorem lookupField_cons (k k' : String) (v : JVal) (rest : Fields) :
    lookupField k ((k', v) :: rest) =
      if k = k' then some v else lookupField k rest := rfl

theorem lookupField_updateField_self (p : Fields) (k : String) (v : JVal) :
    lookupField k (updateField p k v) = some v := by
  simp [updateField]

theorem lookupField_updateField_ne (p : Fields) (k dst : String) (v : JVal)
    (h : k ≠ dst) : lookupField k (updateField p dst v) = lookupField k p := by
  simp [updateField, h]

theorem lookupField_passField_ne (c : Fields) (src dst : String) (p : Fields)
    (k : String) (h : k ≠ dst) :
    lookupField k (passField c src dst p) = lookupField k p := by
  unfold passField
  cases lookupField src c with
  | none => rfl
  | some v => simp [updateField, h]

theorem lookupField_passFields_ne (c : Fields) (maps : List (String × String))
    (k : String) (h : ∀ sd ∈ maps, sd.2 ≠ k) (p : Fields) :
    lookupField k (passFields c maps p) = lookupField k p := by
  induction maps generalizing p with
  | nil => rfl
  | cons sd rest ih =>
    have h1 : sd.2 ≠ k := h sd (List.mem_cons_self sd rest)
    have h2 : ∀ x ∈ rest, x.2 ≠ k := fun x hx => h x (List.mem_cons_of_mem sd hx)
    calc lookupField k (passFields c (sd :: rest) p)
        = lookupField k (passFields c rest (passField c sd.1 sd.2 p)) := rfl
      _ = lookupField k (passField c sd.1 sd.2 p) := ih h2 _
      _ = lookupField k p := lookupField_passField_ne c sd.1 sd.2 p k (Ne.symm h1)

theorem lookupField_passField_isSome (c : Fields) (src dst : String) (p : Fields)
    (k : String) (h : lookupField k (passField c src dst p) ≠ none) :
    lookupField k p ≠ none ∨ (k = dst ∧ lookupField src c ≠ none) := by
  unfold passField at h
  cases hc : lookupField src c with
  | none => rw [hc] at h; exact Or.inl h
  | some v =>
    rw [hc] at h
    by_cases hk : k = dst
    · exact Or.inr ⟨hk, by simp [hc]⟩
    · left; rwa [lookupField_updateField_ne p k dst v hk] at h

theorem lookupField_passFields_isSome (c : Fields) (maps : List (String × String))
    (k : String) (p : Fields)
    (h : lookupField k (passFields c maps p) ≠ none) :
    lookupField k p ≠ none ∨
      ∃ sd ∈ maps, sd.2 = k ∧ lookupField sd.1 c ≠ none := by
  induction maps generalizing p with
  | nil => exact Or.inl h
  | cons sd rest ih =>
    have h' : lookupField k (passFields c rest (passField c sd.1 sd.2 p)) ≠ none := h
    rcases ih (passField c sd.1 sd.2 p) h' with h1 | ⟨sd', hmem, hdst, hsrc⟩
    · rcases lookupField_passField_isSome c sd.1 sd.2 p k h1 with h2 | ⟨hk, hsrc⟩
      · exact Or.inl h2
      · exact Or.inr ⟨sd, List.mem_cons_self sd rest, hk.symm, hsrc⟩
    · exact Or.inr ⟨sd', List.mem_cons_of_mem sd hmem, hdst, hsrc⟩

theorem lookupField_passFields_shadow_free (c : Fields)
    (maps : List (String × String)) (out : String)
    (habs : ∀ sd ∈ maps, sd.2 = out → lookupField sd.1 c = none) (p : Fields) :
    lookupField out (passFields c maps p) = lookupField out p := by
  induction maps generalizing p with
  | nil => rfl
  | cons sd rest ih =>
    have hrest : ∀ x ∈ rest, x.2 = out → lookupField x.1 c = none :=
      fun x hx => habs x (List.mem_cons_of_mem sd hx)
    calc lookupField out (passFields c (sd :: rest) p)
        = lookupField out (passField c sd.1 sd.2 p) := ih hrest _
      _ = lookupField out p := by
          by_cases hk : sd.2 = out
          · unfold passField
            rw [habs sd (List.mem_cons_self sd rest) hk]
          · exact lookupField_passField_ne c sd.1 sd.2 p out fun h => hk h.symm

theorem lookupField_passFields_only (c : Fields) (maps : List (String × String))
    (src out : String) (v : JVal)
    (hmem : (src, out) ∈ maps) (hv : lookupField src c = some v)
    (honly : ∀ sd ∈ maps, sd.2 = out → sd.1 = src) (p : Fields) :
    lookupField out (passFields c maps p) = some v := by
  induction maps generalizing p with
  | nil => cases hmem
  | cons sd rest ih =>
    have honly' : ∀ x ∈ rest, x.2 = out → x.1 = src :=
      fun x hx => honly x (List.mem_cons_of_mem sd hx)
    by_cases hin : (src, out) ∈ rest
    · exact ih hin honly' _
    · have hsd : sd = (src, out) := by
        rcases List.mem_cons.mp hmem with h | h
        · exact h.symm
        · exact absurd h hin
      subst hsd
      have hrest : ∀ x ∈ rest, x.2 = out → lookupField x.1 c = none := by
        intro x hx hxo
        have hx1 : x.1 = src := honly' x hx hxo
        have : x = (src, out) := Prod.ext hx1 hxo
        exact absurd (this ▸ hx) hin
      calc lookupField out (passFields c ((src, out) :: rest) p)
          = lookupField out (passField c src out p) :=
            lookupField_passFields_shadow_free c rest out hrest _
        _ = some v := by
            unfold passField; rw [hv]; exact lookupField_updateField_self _ _ _

/-! ### Lemmas about the rain block -/

theorem rainCountE_nonNull (st : DriverState) (s t : ℚ) :
    rainCountE st (some s) (some t) =
      .ok (some (stormDelta st.last_rain_storm st.last_rain_storm_start_at s t)) := by
  obtain ⟨lrs, lrssa, rcs⟩ := st
  cases lrs with
  | none => cases lrssa <;> simp [rainCountE, stormDelta]
  | some l =>
    cases lrssa with
    | none => simp [rainCountE, stormDelta]
    | some lt =>
      by_cases htl : t = lt
      · subst htl
        by_cases hls : l ≤ s <;> simp [rainCountE, stormDelta, hls]
      · simp [rainCountE, stormDelta, htl]

theorem rainStormPart_spec (c : Fields) (st : DriverState) (p : Fields)
    (s t m : ℚ)
    (hs : lookupField "rain_storm" c = some (some s))
    (ht : lookupField "rain_storm_start_at" c = some (some t))
    (hm : st.rain_count_size = some m) :
    rainStormPart c st p =
      .ok (updateField p "rain"
            (some (stormDelta st.last_rain_storm st.last_rain_storm_start_at s t * m)),
           { st with last_rain_storm := some s,
                     last_rain_storm_start_at := some t }) := by
  unfold rainStormPart
  rw [hs, ht]
  dsimp only
  rw [rainCountE_nonNull, hm]

theorem rainStormPart_ok_lookupField (c : Fields) (st : DriverState)
    (p q : Fields) (st' : DriverState) (k : String) (hk : k ≠ "rain")
    (hok : rainStormPart c st p = .ok (q, st')) :
    lookupField k q = lookupField k p := by
  unfold rainStormPart at hok
  cases h1 : lookupField "rain_storm" c with
  | none =>
    rw [h1] at hok
    simp at hok
    rw [hok.1]
  | some sv =>
    cases h2 : lookupField "rain_storm_start_at" c with
    | none =>
      rw [h1, h2] at hok
      simp at hok
      rw [hok.1]
    | some tv =>
      rw [h1, h2] at hok
      dsimp only at hok
      cases hE : rainCountE st sv tv with
      | error stE => rw [hE] at hok; simp at hok
      | ok rc =>
        rw [hE] at hok
        cases rc with
        | none => simp at hok
        | some rcv =>
          cases hrcs : st.rain_count_size with
          | none => rw [hrcs] at hok; simp at hok
          | some m =>
            rw [hrcs] at hok
            simp at hok
            rw [← hok.1]
            exact lookupField_updateField_ne p k "rain" _ hk

theorem rainStormPart_ok_isSome (c : Fields) (st : DriverState)
    (p q : Fields) (st' : DriverState) (k : String)
    (hok : rainStormPart c st p = .ok (q, st'))
    (h : lookupField k q ≠ none) :
    lookupField k p ≠ none ∨
      (k = "rain" ∧ lookupField "rain_storm" c ≠ none) := by
  by_cases hk : k = "rain"
  · cases h1 : lookupField "rain_storm" c with
    | none =>
      unfold rainStormPart at hok
      rw [h1] at hok
      simp at hok
      left
      rwa [hok.1]
    | some sv => exact Or.inr ⟨hk, by simp [h1]⟩
  · left
    rwa [rainStormPart_ok_lookupField c st p q st' k hk hok] at h

theorem rainRatePart_absent (c : Fields) (st : DriverState) (p : Fields)
    (h : lookupField "rain_rate_last" c = none) :
    rainRatePart c st p = .ok p := by
  unfold rainRatePart
  rw [h]

theorem rainRatePart_num (c : Fields) (st : DriverState) (p : Fields) (r m : ℚ)
    (h : lookupField "rain_rate_last" c = some (some r))
    (hm : st.rain_count_size = some m) :
    rainRatePart c st p = .ok (updateField p "rainRate" (some (r * m))) := by
  unfold rainRatePart
  rw [h, hm]

theorem rainRatePart_ok_lookupField (c : Fields) (st : DriverState)
    (p p1 : Fields) (k : String) (hk : k ≠ "rainRate")
    (hok : rainRatePart c st p = .ok p1) :
    lookupField k p1 = lookupField k p := by
  unfold rainRatePart at hok
  cases h1 : lookupField "rain_rate_last" c with
  | none =>
    rw [h1] at hok
    simp at hok
    rw [hok]
  | some rv =>
    cases rv with
    | none => rw [h1] at hok; simp at hok
    | some r =>
      rw [h1] at hok
      cases hrcs : st.rain_count_size with
      | none => rw [hrcs] at hok; simp at hok
      | some m =>
        rw [hrcs] at hok
        simp at hok
        rw [← hok]
        exact lookupField_updateField_ne p k "rainRate" _ hk

theorem rainRatePart_ok_isSome (c : Fields) (st : DriverState)
    (p p1 : Fields) (k : String)
    (hok : rainRatePart c st p = .ok p1)
    (h : lookupField k p1 ≠ none) :
    lookupField k p ≠ none ∨
      (k = "rainRate" ∧ lookupField "rain_rate_last" c ≠ none) := by
  by_cases hk : k = "rainRate"
  · cases h1 : lookupField "rain_rate_last" c with
    | none =>
      rw [rainRatePart_absent c st p h1] at hok
      simp at hok
      left
      rwa [hok]
    | some rv => exact Or.inr ⟨hk, by simp [h1]⟩
  · left
    rwa [rainRatePart_ok_lookupField c st p p1 k hk hok] at h

theorem resolveCountSize_of_some (st : DriverState) (rs m : ℚ)
    (hm : rainCountSizeFor rs = some m) :
    resolveCountSize st rs = { st with rain_count_size := some m } := by
  unfold resolveCountSize
  rw [hm]

theorem rainBlockCore_ok_isSome (c : Fields) (st1 : DriverState)
    (p q : Fields) (st' : DriverState) (k : String)
    (hok : rainBlockCore c st1 p = .ok (q, st'))
    (h : lookupField k q ≠ none) :
    lookupField k p ≠ none ∨
      (k = "rainRate" ∧ lookupField "rain_rate_last" c ≠ none) ∨
      (k = "rain" ∧ lookupField "rain_storm" c ≠ none) := by
  unfold rainBlockCore at hok
  cases hrp : rainRatePart c st1 p with
  | error stE => rw [hrp] at hok; simp at hok
  | ok p1 =>
    rw [hrp] at hok
    dsimp only at hok
    rcases rainStormPart_ok_isSome c st1 p1 q st' k hok h with h2 | ⟨hk, hst⟩
    · rcases rainRatePart_ok_isSome c st1 p p1 k hrp h2 with h3 | h4
      · exact Or.inl h3
      · exact Or.inr (Or.inl h4)
    · exact Or.inr (Or.inr ⟨hk, hst⟩)

theorem rainBlock_absent (c : Fields) (st : DriverState) (p : Fields)
    (h : lookupField "rain_size" c = none) :
    rainBlock c st p = .ok (p, st) := by
  unfold rainBlock
  rw [h]

theorem rainBlock_ok_isSome (c : Fields) (st : DriverState) (p q : Fields)
    (st' : DriverState) (k : String)
    (hok : rainBlock c st p = .ok (q, st'))
    (h : lookupField k q ≠ none) :
    lookupField k p ≠ none ∨
      (k = "rainRate" ∧ lookupField "rain_rate_last" c ≠ none) ∨
      (k = "rain" ∧ lookupField "rain_storm" c ≠ none) := by
  unfold rainBlock at hok
  cases h1 : lookupField "rain_size" c with
  | none =>
    rw [h1] at hok
    simp at hok
    left
    rwa [hok.1]
  | some rv =>
    cases rv with
    | none => rw [h1] at hok; simp at hok
    | some rs =>
      rw [h1] at hok
      dsimp only at hok
      by_cases hr : 1 ≤ rs ∧ rs ≤ 4
      · rw [if_pos hr] at hok
        exact rainBlockCore_ok_isSome c (resolveCountSize st rs) p q st' k hok h
      · rw [if_neg hr] at hok
        simp at hok
        left
        rwa [hok.1]

theorem rainBlock_spec (c : Fields) (st : DriverState) (p : Fields)
    (rs s t m : ℚ)
    (hrs : lookupField "rain_size" c = some (some rs))
    (hrange : 1 ≤ rs ∧ rs ≤ 4)
    (hm : rainCountSizeFor rs = some m)
    (hs : lookupField "rain_storm" c = some (some s))
    (ht : lookupField "rain_storm_start_at" c = some (some t))
    (hrate : lookupField "rain_rate_last" c = none ∨
             ∃ r, lookupField "rain_rate_last" c = some (some r)) :
    ∃ p1, lookupField "rain" p1 = lookupField "rain" p ∧
      (∀ r, lookupField "rain_rate_last" c = some (some r) →
         lookupField "rainRate" p1 = some (some (r * m))) ∧
      rainBlock c st p =
        .ok (updateField p1 "rain"
              (some (stormDelta st.last_rain_storm st.last_rain_storm_start_at
                       s t * m)),
             ⟨some s, some t, some m⟩) := by
  unfold rainBlock
  rw [hrs]
  dsimp only
  rw [if_pos hrange, resolveCountSize_of_some st rs m hm]
  unfold rainBlockCore
  rcases hrate with hnone | ⟨r, hr⟩
  · rw [rainRatePart_absent c _ p hnone]
    dsimp only
    refine ⟨p, rfl, ?_, ?_⟩
    · intro r hr
      rw [hnone] at hr
      cases hr
    · rw [rainStormPart_spec c _ p s t m hs ht rfl]
  · rw [rainRatePart_num c _ p r m hr rfl]
    dsimp only
    refine ⟨updateField p "rainRate" (some (r * m)), ?_, ?_, ?_⟩
    · exact lookupField_updateField_ne p "rain" "rainRate" _ (by decide)
    · intro r' hr'
      rw [hr] at hr'
      cases hr'
      exact lookupField_updateField_self p "rainRate" _
    · rw [rainStormPart_spec c _ _ s t m hs ht rfl]

theorem rainCountSizeFor_cases (rs : ℚ) (h : rs = 1 ∨ rs = 2 ∨ rs = 3 ∨ rs = 4) :
    (1 ≤ rs ∧ rs ≤ 4) ∧
    rainCountSizeFor rs =
      some (if rs = 1 then (1:ℚ)/100
            else if rs = 2 then 2/10 * MM_TO_INCH
            else if rs = 3 then 1/10
            else 1/1000 * MM_TO_INCH) := by
  rcases h with rfl | rfl | rfl | rfl <;> norm_num [rainCountSizeFor]

/-! ### Lemmas about record dispatch and whole-cycle processing -/

theorem rainBlock_ok_lookupField (c : Fields) (st : DriverState) (p q : Fields)
    (st' : DriverState) (k : String) (hk1 : k ≠ "rain") (hk2 : k ≠ "rainRate")
    (hok : rainBlock c st p = .ok (q, st')) :
    lookupField k q = lookupField k p := by
  unfold rainBlock at hok
  cases h1 : lookupField "rain_size" c with
  | none =>
    rw [h1] at hok
    simp at hok
    rw [hok.1]
  | some rv =>
    cases rv with
    | none => rw [h1] at hok; simp at hok
    | some rs =>
      rw [h1] at hok
      dsimp only at hok
      by_cases hr : 1 ≤ rs ∧ rs ≤ 4
      · rw [if_pos hr] at hok
        unfold rainBlockCore at hok
        cases hrp : rainRatePart c (resolveCountSize st rs) p with
        | error stE => rw [hrp] at hok; simp at hok
        | ok p1 =>
          rw [hrp] at hok
          dsimp only at hok
          calc lookupField k q
              = lookupField k p1 :=
                rainStormPart_ok_lookupField c _ p1 q st' k hk1 hok
            _ = lookupField k p :=
                rainRatePart_ok_lookupField c _ p p1 k hk2 hrp
      · rw [if_neg hr] at hok
        simp at hok
        rw [hok.1]

theorem processCondition_type1 (st : DriverState) (p c : Fields)
    (h : lookupField "data_structure_type" c = some (some 1)) :
    processCondition st p c = processType1 c st p := by
  unfold processCondition
  rw [h]
  dsimp only
  rw [if_pos rfl]

theorem processCondition_type2 (st : DriverState) (p c : Fields)
    (h : lookupField "data_structure_type" c = some (some 2)) :
    processCondition st p c = .ok (passFields c type2Fields p, st) := by
  unfold processCondition
  rw [h]
  dsimp only
  rw [if_neg (by simp), if_pos rfl]

theorem processCondition_type3 (st : DriverState) (p c : Fields)
    (h : lookupField "data_structure_type" c = some (some 3)) :
    processCondition st p c = .ok (passFields c type3Fields p, st) := by
  unfold processCondition
  rw [h]
  dsimp only
  rw [if_neg (by simp), if_neg (by simp), if_pos rfl]

theorem processCondition_type4 (st : DriverState) (p c : Fields)
    (h : lookupField "data_structure_type" c = some (some 4)) :
    processCondition st p c = .ok (passFields c type4Fields p, st) := by
  unfold processCondition
  rw [h]
  dsimp only
  rw [if_neg (by simp), if_neg (by simp), if_neg (by simp), if_pos rfl]

theorem processCondition_unknown (st : DriverState) (p c : Fields) (v : JVal)
    (hd : lookupField "data_structure_type" c = some v)
    (hv : ¬ recognizedType v) :
    processCondition st p c = .ok (p, st) := by
  unfold recognizedType at hv
  push_neg at hv
  unfold processCondition
  rw [hd]
  dsimp only
  rw [if_neg hv.1, if_neg hv.2.1, if_neg hv.2.2.1, if_neg hv.2.2.2]

theorem processType1_ok_isSome (c : Fields) (st : DriverState) (p p' : Fields)
    (st' : DriverState) (k : String)
    (hok : processType1 c st p = .ok (p', st'))
    (h : lookupField k p' ≠ none) :
    lookupField k p ≠ none ∨
      (∃ sd, (sd ∈ type1Fields ∨ sd ∈ type1PostRainFields) ∧ sd.2 = k ∧
         lookupField sd.1 c ≠ none) ∨
      (k = "rainRate" ∧ lookupField "rain_rate_last" c ≠ none) ∨
      (k = "rain" ∧ lookupField "rain_storm" c ≠ none) := by
  unfold processType1 at hok
  cases hrb : rainBlock c st (passFields c type1Fields p) with
  | error stE => rw [hrb] at hok; simp at hok
  | ok pr =>
    obtain ⟨p1, st1⟩ := pr
    rw [hrb] at hok
    dsimp only at hok
    simp at hok
    rw [← hok.1] at h
    rcases lookupField_passFields_isSome c type1PostRainFields k p1 h with
      h2 | ⟨sd, hmem, hdst, hsrc⟩
    · rcases rainBlock_ok_isSome c st _ p1 st1 k hrb h2 with h3 | h4 | h5
      · rcases lookupField_passFields_isSome c type1Fields k p h3 with
          h6 | ⟨sd, hmem, hdst, hsrc⟩
        · exact Or.inl h6
        · exact Or.inr (Or.inl ⟨sd, Or.inl hmem, hdst, hsrc⟩)
      · exact Or.inr (Or.inr (Or.inl h4))
      · exact Or.inr (Or.inr (Or.inr h5))
    · exact Or.inr (Or.inl ⟨sd, Or.inr hmem, hdst, hsrc⟩)

theorem mem_inputKeysFor (src k : String) (h : (src, k) ∈ allFieldMaps) :
    src ∈ inputKeysFor k := by
  unfold inputKeysFor
  refine List.mem_append.mpr (Or.inl (List.mem_append.mpr (Or.inl ?_)))
  exact List.mem_map.mpr ⟨(src, k), List.mem_filter.mpr ⟨h, by simp⟩, rfl⟩

theorem processCondition_ok_isSome (st : DriverState) (p c p' : Fields)
    (st' : DriverState) (k : String)
    (hok : processCondition st p c = .ok (p', st'))
    (h : lookupField k p' ≠ none) :
    lookupField k p ≠ none ∨ ∃ i ∈ inputKeysFor k, lookupField i c ≠ none := by
  cases hd : lookupField "data_structure_type" c with
  | none => unfold processCondition at hok; rw [hd] at hok; simp at hok
  | some v =>
    by_cases h1 : v = some 1
    · subst h1
      rw [processCondition_type1 st p c hd] at hok
      rcases processType1_ok_isSome c st p p' st' k hok h with
        hp | ⟨sd, hmem, hdst, hsrc⟩ | ⟨hk, hsrc⟩ | ⟨hk, hsrc⟩
      · exact Or.inl hp
      · obtain ⟨s0, d0⟩ := sd
        dsimp at hdst
        subst hdst
        refine Or.inr ⟨s0, mem_inputKeysFor s0 _ ?_, hsrc⟩
        unfold allFieldMaps
        rcases hmem with hm | hm <;> simp [hm]
      · subst hk
        exact Or.inr ⟨"rain_rate_last", by decide, hsrc⟩
      · subst hk
        exact Or.inr ⟨"rain_storm", by decide, hsrc⟩
    · by_cases h2 : v = some 2
      · subst h2
        rw [processCondition_type2 st p c hd] at hok
        simp at hok
        rw [← hok.1] at h
        rcases lookupField_passFields_isSome c type2Fields k p h with
          hp | ⟨sd, hmem, hdst, hsrc⟩
        · exact Or.inl hp
        · obtain ⟨s0, d0⟩ := sd
          dsimp at hdst
          subst hdst
          refine Or.inr ⟨s0, mem_inputKeysFor s0 _ ?_, hsrc⟩
          unfold allFieldMaps
          simp [hmem]
      · by_cases h3 : v = some 3
        · subst h3
          rw [processCondition_type3 st p c hd] at hok
          simp at hok
          rw [← hok.1] at h
          rcases lookupField_passFields_isSome c type3Fields k p h with
            hp | ⟨sd, hmem, hdst, hsrc⟩
          · exact Or.inl hp
          · obtain ⟨s0, d0⟩ := sd
            dsimp at hdst
            subst hdst
            refine Or.inr ⟨s0, mem_inputKeysFor s0 _ ?_, hsrc⟩
            unfold allFieldMaps
            simp [hmem]
        · by_cases h4 : v = some 4
          · subst h4
            rw [processCondition_type4 st p c hd] at hok
            simp at hok
            rw [← hok.1] at h
            rcases lookupField_passFields_isSome c type4Fields k p h with
              hp | ⟨sd, hmem, hdst, hsrc⟩
            · exact Or.inl hp
            · obtain ⟨s0, d0⟩ := sd
              dsimp at hdst
              subst hdst
              refine Or.inr ⟨s0, mem_inputKeysFor s0 _ ?_, hsrc⟩
              unfold allFieldMaps
              simp [hmem]
          · rw [processCondition_unknown st p c v hd
                (by unfold recognizedType; tauto)] at hok
            simp at hok
            left
            rwa [hok.1]

theorem processConditions_ok_isSome (conds : List Fields) (st : DriverState)
    (p p' : Fields) (st' : DriverState) (k : String)
    (hok : processConditions st p conds = .ok (p', st'))
    (h : lookupField k p' ≠ none) :
    lookupField k p ≠ none ∨
      ∃ c ∈ conds, ∃ i ∈ inputKeysFor k, lookupField i c ≠ none := by
  induction conds generalizing st p with
  | nil =>
    unfold processConditions at hok
    simp at hok
    left
    rwa [hok.1]
  | cons c rest ih =>
    unfold processConditions at hok
    cases hpc : processCondition st p c with
    | error stE => rw [hpc] at hok; simp at hok
    | ok pr =>
      obtain ⟨p1, st1⟩ := pr
      rw [hpc] at hok
      dsimp only at hok
      rcases ih st1 p1 hok with h1 | ⟨c', hc', hi⟩
      · rcases processCondition_ok_isSome st p c p1 st1 k hpc h1 with
          h2 | ⟨i, hi, hsrc⟩
        · exact Or.inl h2
        · exact Or.inr ⟨c, List.mem_cons_self c rest, i, hi, hsrc⟩
      · exact Or.inr ⟨c', List.mem_cons_of_mem c hc', hi⟩

theorem processCondition_passthrough (st : DriverState) (p c p' : Fields)
    (st' : DriverState) (ty : ℚ) (src out : String) (v : JVal)
    (hok : processCondition st p c = .ok (p', st'))
    (hty : lookupField "data_structure_type" c = some (some ty))
    (hmem : (src, out) ∈ mapsForType ty)
    (hv : lookupField src c = some v)
    (honly : ∀ sd ∈ mapsForType ty, sd.2 = out → sd.1 = src) :
    lookupField out p' = some v := by
  by_cases h1 : ty = 1
  · subst h1
    rw [processCondition_type1 st p c hty] at hok
    have hmaps : mapsForType 1 = type1Fields ++ type1PostRainFields := by
      norm_num [mapsForType]
    rw [hmaps] at hmem honly
    unfold processType1 at hok
    cases hrb : rainBlock c st (passFields c type1Fields p) with
    | error stE => rw [hrb] at hok; simp at hok
    | ok pr =>
      obtain ⟨p1, st1⟩ := pr
      rw [hrb] at hok
      dsimp only at hok
      simp at hok
      rw [← hok.1]
      by_cases hpost : (src, out) ∈ type1PostRainFields
      · exact lookupField_passFields_only c type1PostRainFields src out v hpost hv
          (fun sd hsd hdst => honly sd (List.mem_append.mpr (Or.inr hsd)) hdst) p1
      · have hnone : ∀ sd ∈ type1PostRainFields, sd.2 = out →
            lookupField sd.1 c = none := by
          intro sd hsd hdst
          exfalso
          apply hpost
          have heq : sd = (src, out) :=
            Prod.ext (honly sd (List.mem_append.mpr (Or.inr hsd)) hdst) hdst
          rwa [heq] at hsd
        rw [lookupField_passFields_shadow_free c type1PostRainFields out hnone p1]
        have hpre : (src, out) ∈ type1Fields := by
          rcases List.mem_append.mp hmem with h | h
          · exact h
          · exact absurd h hpost
        have hne := (show ∀ x ∈ type1Fields, x.2 ≠ "rain" ∧ x.2 ≠ "rainRate"
          by decide) (src, out) hpre
        rw [rainBlock_ok_lookupField c st _ p1 st1 out hne.1 hne.2 hrb]
        exact lookupField_passFields_only c type1Fields src out v hpre hv
          (fun sd hsd hdst => honly sd (List.mem_append.mpr (Or.inl hsd)) hdst) p
  · by_cases h2 : ty = 2
    · subst h2
      rw [processCondition_type2 st p c hty] at hok
      simp at hok
      rw [← hok.1]
      have hmaps : mapsForType 2 = type2Fields := by norm_num [mapsForType]
      rw [hmaps] at hmem honly
      exact lookupField_passFields_only c type2Fields src out v hmem hv honly p
    · by_cases h3 : ty = 3
      · subst h3
        rw [processCondition_type3 st p c hty] at hok
        simp at hok
        rw [← hok.1]
        have hmaps : mapsForType 3 = type3Fields := by norm_num [mapsForType]
        rw [hmaps] at hmem honly
        exact lookupField_passFields_only c type3Fields src out v hmem hv honly p
      · by_cases h4 : ty = 4
        · subst h4
          rw [processCondition_type4 st p c hty] at hok
          simp at hok
          rw [← hok.1]
          have hmaps : mapsForType 4 = type4Fields := by norm_num [mapsForType]
          rw [hmaps] at hmem honly
          exact lookupField_passFields_only c type4Fields src out v hmem hv honly p
        · have hmaps : mapsForType ty = [] := by
            simp [mapsForType, h1, h2, h3, h4]
          rw [hmaps] at hmem
          cases hmem

theorem keepCondition_false (c : Fields) (hk : keepCondition c = false) :
    ∃ v, lookupField "data_structure_type" c = some v ∧ ¬ recognizedType v := by
  unfold keepCondition at hk
  cases hd : lookupField "data_structure_type" c with
  | none => rw [hd] at hk; cases hk
  | some v =>
    rw [hd] at hk
    exact ⟨v, rfl, by simpa using hk⟩

theorem processConditions_filter (st : DriverState) (p : Fields)
    (conds : List Fields) :
    processConditions st p (conds.filter keepCondition) =
      processConditions st p conds := by
  induction conds generalizing st p with
  | nil => rfl
  | cons c rest ih =>
    by_cases hk : keepCondition c = true
    · rw [List.filter_cons_of_pos hk]
      unfold processConditions
      cases hpc : processCondition st p c with
      | error stE => rfl
      | ok pr =>
        obtain ⟨p1, st1⟩ := pr
        dsimp only
        exact ih st1 p1
    · rw [List.filter_cons_of_neg hk]
      obtain ⟨v, hd, hv⟩ := keepCondition_false c (Bool.eq_false_iff.mpr hk)
      have hunk := processCondition_unknown st p c v hd hv
      conv_rhs => unfold processConditions
      rw [hunk]
      dsimp only
      exact ih st p

theorem runLoop_length (poll_interval : ℚ) (st : DriverState)
    (fs : List FetchResult) :
    (runLoop poll_interval st fs).length = fs.length := by
  induction fs generalizing st with
  | nil => rfl
  | cons f rest ih =>
    unfold runLoop
    simp [ih]

theorem runStorm_sum_from (l0 t0 s : ℚ) (rest : List (ℚ × ℚ))
    (hstart : ∀ x ∈ rest, x.2 = t0)
    (hmono : List.Chain' (fun a b => a.1 ≤ b.1) ((s, t0) :: rest))
    (hfirst : l0 ≤ s) :
    (runStorm (some l0) (some t0) ((s, t0) :: rest)).sum =
      (((s, t0) :: rest).getLast (List.cons_ne_nil _ _)).1 - l0 := by
  induction rest generalizing l0 s with
  | nil =>
    show (stormDelta (some l0) (some t0) s t0 :: runStorm (some s) (some t0) []).sum = _
    unfold stormDelta runStorm
    simp [hfirst]
  | cons y rest' ih =>
    obtain ⟨s2, t2⟩ := y
    have ht2 : t0 = t2 := (hstart (s2, t2) (List.mem_cons_self _ _)).symm
    subst ht2
    have h12 : s ≤ s2 := (List.chain'_cons.mp hmono).1
    have hmono' : List.Chain' (fun a b => a.1 ≤ b.1) ((s2, t0) :: rest') :=
      (List.chain'_cons.mp hmono).2
    have hstart' : ∀ x ∈ rest', x.2 = t0 := fun x hx =>
      hstart x (List.mem_cons_of_mem _ hx)
    have hrec := ih s s2 hstart' hmono' h12
    show (stormDelta (some l0) (some t0) s t0 ::
          runStorm (some s) (some t0) ((s2, t0) :: rest')).sum = _
    rw [List.sum_cons, hrec]
    have hd : stormDelta (some l0) (some t0) s t0 = s - l0 := by
      unfold stormDelta
      simp [hfirst]
    rw [hd, List.getLast_cons (List.cons_ne_nil _ _)]
    ring

theorem stormDelta_absent (lrs lrssa : Option ℚ)
    (h : lrs = none ∨ lrssa = none) (s t : ℚ) : stormDelta lrs lrssa s t = 0 := by
  unfold stormDelta
  rcases h with h | h <;> subst h
  · cases lrssa <;> rfl
  · cases lrs <;> rfl

theorem stormDelta_newStorm (l lt s t : ℚ) (h : t ≠ lt) :
    stormDelta (some l) (some lt) s t = s := by
  unfold stormDelta
  simp [h]

theorem stormDelta_incr (l s t : ℚ) (h : l ≤ s) :
    stormDelta (some l) (some t) s t = s - l := by
  unfold stormDelta
  simp [h]

theorem stormDelta_decr (l s t : ℚ) (h : s < l) :
    stormDelta (some l) (some t) s t = 0 := by
  unfold stormDelta
  simp [not_le.mpr h]

/-! ### Claim theorems -/

/-- C1: for every cycle processing a type-1 record with `rain_size` present
and in 1..4 and both `rain_storm` and `rain_storm_start_at` present (with
numeric values; the side condition on `rain_rate_last` excludes a
present-but-null rain rate, which would abort the cycle at line 200 before
the storm block runs), the storm-delta algorithm produces: delta 0 when the
stored state is absent; delta = current total when the start timestamp
changed; delta = total difference when unchanged and non-decreasing; delta
0 when unchanged and decreasing; in every branch the stored state becomes
the current `(total, startTime)` and the emitted `rain` field equals delta
times the collector multiplier. -/
theorem claimC1_stormDelta (st : DriverState) (p c : Fields) (rs s t : ℚ)
    (hty : lookupField "data_structure_type" c = some (some 1))
    (hrs : lookupField "rain_size" c = some (some rs))
    (hrs4 : rs = 1 ∨ rs = 2 ∨ rs = 3 ∨ rs = 4)
    (hs : lookupField "rain_storm" c = some (some s))
    (ht : lookupField "rain_storm_start_at" c = some (some t))
    (hrate : lookupField "rain_rate_last" c = none ∨
             ∃ r, lookupField "rain_rate_last" c = some (some r)) :
    ∃ m p', rainCountSizeFor rs = some m ∧
      processCondition st p c = .ok (p', ⟨some s, some t, some m⟩) ∧
      lookupField "rain" p' =
        some (some (stormDelta st.last_rain_storm st.last_rain_storm_start_at
                      s t * m)) ∧
      ((st.last_rain_storm = none ∨ st.last_rain_storm_start_at = none) →
        stormDelta st.last_rain_storm st.last_rain_storm_start_at s t = 0) ∧
      (∀ l lt, st.last_rain_storm = some l →
        st.last_rain_storm_start_at = some lt →
        (t ≠ lt →
          stormDelta st.last_rain_storm st.last_rain_storm_start_at s t = s) ∧
        (t = lt → l ≤ s →
          stormDelta st.last_rain_storm st.last_rain_storm_start_at s t
            = s - l) ∧
        (t = lt → s < l →
          stormDelta st.last_rain_storm st.last_rain_storm_start_at s t = 0)) := by
  obtain ⟨hrange, hmeq⟩ := rainCountSizeFor_cases rs hrs4
  set m0 : ℚ := if rs = 1 then (1:ℚ)/100
                else if rs = 2 then 2/10 * MM_TO_INCH
                else if rs = 3 then 1/10
                else 1/1000 * MM_TO_INCH with hm0
  obtain ⟨p1, hp1rain, hp1rate, hrb⟩ :=
    rainBlock_spec c st (passFields c type1Fields p) rs s t m0 hrs hrange hmeq
      hs ht hrate
  refine ⟨m0, passFields c type1PostRainFields
      (updateField p1 "rain"
        (some (stormDelta st.last_rain_storm st.last_rain_storm_start_at
                 s t * m0))),
    hmeq, ?_, ?_, ?_, ?_⟩
  · rw [processCondition_type1 st p c hty]
    unfold processType1
    rw [hrb]
  · rw [lookupField_passFields_ne c type1PostRainFields "rain" (by decide) _]
    exact lookupField_updateField_self _ _ _
  · exact fun h0 => stormDelta_absent _ _ h0 s t
  · intro l lt hl hlt
    rw [hl, hlt]
    exact ⟨fun hne => stormDelta_newStorm l lt s t hne,
           fun hteq hle => by rw [hteq]; exact stormDelta_incr l s lt hle,
           fun hteq hlt2 => by rw [hteq]; exact stormDelta_decr l s lt hlt2⟩

/-- C1 witness: the theorem applied to the initial state and the concrete
record `data_structure_type 1, rain_size 1, rain_storm 10,
rain_storm_start_at 500`. -/
theorem claimC1_stormDelta_witness :
    ∃ m p', rainCountSizeFor 1 = some m ∧
      processCondition initState []
          [("data_structure_type", some 1), ("rain_size", some 1),
           ("rain_storm", some 10), ("rain_storm_start_at", some 500)] =
        .ok (p', ⟨some 10, some 500, some m⟩) ∧
      lookupField "rain" p' = some (some (stormDelta none none 10 500 * m)) ∧
      ((Option.none = (none : Option ℚ) ∨ Option.none = (none : Option ℚ)) →
        stormDelta none none 10 500 = 0) ∧
      (∀ l lt, (none : Option ℚ) = some l → (none : Option ℚ) = some lt →
        (500 ≠ lt → stormDelta none none 10 500 = 10) ∧
        (500 = lt → l ≤ 10 → stormDelta none none 10 500 = 10 - l) ∧
        (500 = lt → 10 < l → stormDelta none none 10 500 = 0)) :=
  claimC1_stormDelta initState []
    [("data_structure_type", some 1), ("rain_size", some 1),
     ("rain_storm", some 10), ("rain_storm_start_at", some 500)]
    1 10 500 rfl rfl (Or.inl rfl) rfl rfl (Or.inl rfl)

/-- C2: the claim says `moist_soil_2` maps to output field `soilMoist2` and
`moist_soil_3` to `soilMoist3`, two distinct fields.  The code (wll.py line
252) writes `moist_soil_2` to `soilMoist3` instead: evaluating the embedded
code on a type-2 record carrying only `moist_soil_2 = 7` puts the value
under `soilMoist3` and leaves `soilMoist2` absent. -/
theorem claimC2_soilMoistCollision :
    processCondition initState []
        [("data_structure_type", some 2), ("moist_soil_2", some 7)] =
      .ok ([("soilMoist3", some 7)], initState) ∧
    lookupField "soilMoist2" [("soilMoist3", (some 7 : JVal))] = none ∧
    lookupField "soilMoist3" [("soilMoist3", (some 7 : JVal))] = some (some 7) :=
  ⟨rfl, rfl, rfl⟩

/-- C3: the claim says a present-but-null field contributes no entry to the
snapshot.  The code tests only key membership (`"temp" in condition`), so a
type-1 record with `temp: null` produces a packet that DOES contain an
`outTemp` entry, holding the null value. -/
theorem claimC3_nullPassthrough :
    processCondition initState []
        [("data_structure_type", some 1), ("temp", (none : JVal))] =
      .ok ([("outTemp", none)], initState) ∧
    lookupField "outTemp" [("outTemp", (none : JVal))] = some none :=
  ⟨rfl, rfl⟩

/-- C6: the claim says the stored pair is always both absent or both
present, and both present after any cycle that processed a
precipitation-capable record.  Evaluating the embedded code from the
initial state on a type-1 record with `rain_size 1`, `rain_storm: null`,
`rain_storm_start_at 500`: the cycle succeeds (rain 0 is even emitted) but
afterwards `last_rain_storm` is absent while `last_rain_storm_start_at` is
present — the invariant is broken. -/
theorem claimC6_invariantBroken :
    processCondition initState (initPacket 1000)
        [("data_structure_type", some 1), ("rain_size", some 1),
         ("rain_storm", (none : JVal)), ("rain_storm_start_at", some 500)] =
      .ok ([("rain", some (0 * (1/100))), ("usUnits", some weewxUS),
            ("dateTime", some 1000)],
           ⟨none, some 500, some (1/100)⟩) ∧
    (DriverState.mk none (some 500) (some (1/100))).last_rain_storm = none ∧
    (DriverState.mk none (some 500) (some (1/100))).last_rain_storm_start_at
      = some 500 :=
  ⟨rfl, rfl, rfl⟩

/-- C10: state mutation is not atomic with snapshot emission.  With stored
state `(10, 500)`, a document whose first record is a type-1 precipitation
record (`rain_storm 15`, same storm start `500`) and whose second record
lacks `data_structure_type` (KeyError) yields no snapshot, yet the stored
state has already advanced to `(15, 500)`; the next successful cycle with
the same `rain_storm 15` therefore emits rain `(15 - 15) * 0.01 = 0`: the
0.05 inch delta of the failed cycle is lost. -/
theorem claimC10_stateNotAtomic :
    runCycle 10 ⟨some 10, some 500, some (1/100)⟩
        (.payload (.wellFormed 1000
          [[("data_structure_type", some 1), ("rain_size", some 1),
            ("rain_storm", some 15), ("rain_storm_start_at", some 500)],
           []])) =
      ⟨none, ⟨some 15, some 500, some (1/100)⟩, 10⟩ ∧
    (runCycle 10 ⟨some 15, some 500, some (1/100)⟩
        (.payload (.wellFormed 1010
          [[("data_structure_type", some 1), ("rain_size", some 1),
            ("rain_storm", some 15), ("rain_storm_start_at", some 500)]]))).emitted
      = some [("rain", some ((15 - 15) * (1/100))), ("usUnits", some weewxUS),
              ("dateTime", some 1010)] ∧
    ((15 : ℚ) - 15) * (1/100) = 0 :=
  ⟨rfl, rfl, by norm_num⟩

/-- C5: for every type-1 record with `rain_size` in 1..4 and a numeric
`rain_rate_last`, any successfully processed cycle outputs
`rainRate = rain_rate_last * multiplier(rain_size)`, with the multiplier
exactly 0.01, 0.2 * 0.0393701, 0.1, 0.001 * 0.0393701 for collector types
1, 2, 3, 4 respectively. -/
theorem claimC5_rainRate (st : DriverState) (p c p' : Fields)
    (st' : DriverState) (rs r : ℚ)
    (hty : lookupField "data_structure_type" c = some (some 1))
    (hrs : lookupField "rain_size" c = some (some rs))
    (hrs4 : rs = 1 ∨ rs = 2 ∨ rs = 3 ∨ rs = 4)
    (hr : lookupField "rain_rate_last" c = some (some r))
    (hok : processCondition st p c = .ok (p', st')) :
    lookupField "rainRate" p' =
      some (some (r * (if rs = 1 then (1:ℚ)/100
                       else if rs = 2 then 2/10 * MM_TO_INCH
                       else if rs = 3 then 1/10
                       else 1/1000 * MM_TO_INCH))) := by
  obtain ⟨hrange, hmeq⟩ := rainCountSizeFor_cases rs hrs4
  set m0 : ℚ := if rs = 1 then (1:ℚ)/100
                else if rs = 2 then 2/10 * MM_TO_INCH
                else if rs = 3 then 1/10
                else 1/1000 * MM_TO_INCH with hm0
  rw [processCondition_type1 st p c hty] at hok
  unfold processType1 at hok
  unfold rainBlock at hok
  rw [hrs] at hok
  dsimp only at hok
  rw [if_pos hrange, resolveCountSize_of_some st rs m0 hmeq] at hok
  unfold rainBlockCore at hok
  rw [rainRatePart_num c _ _ r m0 hr rfl] at hok
  dsimp only at hok
  cases hsp : rainStormPart c { st with rain_count_size := some m0 }
      (updateField (passFields c type1Fields p) "rainRate" (some (r * m0))) with
  | error stE => rw [hsp] at hok; simp at hok
  | ok pr =>
    obtain ⟨q, st2⟩ := pr
    rw [hsp] at hok
    dsimp only at hok
    simp at hok
    rw [← hok.1]
    rw [lookupField_passFields_ne c type1PostRainFields "rainRate" (by decide) q]
    rw [rainStormPart_ok_lookupField c _ _ q st2 "rainRate" (by decide) hsp]
    exact lookupField_updateField_self _ _ _

/-- C5 witness: the theorem applied to a concrete type-2-collector record
with `rain_rate_last = 100`. -/
theorem claimC5_rainRate_witness :
    lookupField "rainRate"
        [("rainRate", some ((100:ℚ) * (2/10 * MM_TO_INCH)))] =
      some (some ((100:ℚ) * (2/10 * MM_TO_INCH))) :=
  claimC5_rainRate initState []
    [("data_structure_type", some 1), ("rain_size", some 2),
     ("rain_rate_last", some 100)]
    [("rainRate", some (100 * (2/10 * MM_TO_INCH)))]
    ⟨none, none, some (2/10 * MM_TO_INCH)⟩ 2 100
    rfl rfl (Or.inr (Or.inl rfl)) rfl rfl

/-- C4 (amended): over a non-empty observation sequence whose start
timestamps all equal the stored `startTime` and whose totals are
non-decreasing, the emitted deltas sum to the final total minus the MINIMUM
of the initially stored total and the first total of the sequence (when the
stored total is at most the first total this is `finalTotal - storedTotal`;
the claim's `finalTotal - firstTotal` holds only when the first total is at
most the stored total). -/
theorem claimC4_sumDeltas (l0 t0 : ℚ) (obs : List (ℚ × ℚ)) (hne : obs ≠ [])
    (hstart : ∀ x ∈ obs, x.2 = t0)
    (hmono : List.Chain' (fun a b => a.1 ≤ b.1) obs) :
    (runStorm (some l0) (some t0) obs).sum =
      (obs.getLast hne).1 - min l0 (obs.head hne).1 := by
  cases obs with
  | nil => exact absurd rfl hne
  | cons x rest =>
    obtain ⟨s, t⟩ := x
    have hts : t0 = t := (hstart (s, t) (List.mem_cons_self _ _)).symm
    subst hts
    rw [List.head_cons]
    by_cases hls : l0 ≤ s
    · rw [min_eq_left hls]
      exact runStorm_sum_from l0 t0 s rest
        (fun x hx => hstart x (List.mem_cons_of_mem _ hx)) hmono hls
    · rw [min_eq_right (le_of_not_le hls)]
      show (stormDelta (some l0) (some t0) s t0 ::
            runStorm (some s) (some t0) rest).sum = _
      rw [List.sum_cons,
          stormDelta_decr l0 s t0 (lt_of_not_le hls), zero_add]
      cases rest with
      | nil =>
        show (0 : ℚ) = ([(s, t0)].getLast _).1 - s
        simp
      | cons y rest' =>
        obtain ⟨s2, t2⟩ := y
        have ht2 : t0 = t2 :=
          (hstart (s2, t2) (List.mem_cons_of_mem _ (List.mem_cons_self _ _))).symm
        subst ht2
        have h12 : s ≤ s2 := (List.chain'_cons.mp hmono).1
        rw [List.getLast_cons (List.cons_ne_nil _ _)]
        exact runStorm_sum_from s t0 s2 rest'
          (fun x hx => hstart x
            (List.mem_cons_of_mem _ (List.mem_cons_of_mem _ hx)))
          (List.chain'_cons.mp hmono).2 h12

/-- C4 counterexample: with stored state `(5, 100)` and the observation
sequence `(10, 100), (20, 100)` — all start timestamps equal the stored
one, totals non-decreasing — the emitted deltas are `10 - 5 = 5` and
`20 - 10 = 10`, summing to 15, while the claim predicts
`finalTotal - firstTotal = 20 - 10 = 10`. -/
theorem claimC4_counterexample :
    (runStorm (some 5) (some 100) [((10:ℚ), (100:ℚ)), (20, 100)]).sum = 15 ∧
    (15 : ℚ) ≠ 20 - 10 := by
  constructor
  · show stormDelta (some 5) (some 100) 10 100 +
        (stormDelta (some 10) (some 100) 20 100 + 0) = 15
    rw [stormDelta_incr 5 10 100 (by norm_num),
        stormDelta_incr 10 20 100 (by norm_num)]
    norm_num
  · norm_num

/-- C4 witness: the amended theorem applied to the same concrete input,
giving `15 = 20 - min 5 10`. -/
theorem claimC4_witness :
    (runStorm (some 5) (some 100) [((10:ℚ), (100:ℚ)), (20, 100)]).sum =
      (([((10:ℚ), (100:ℚ)), (20, 100)]).getLast (by simp)).1 -
        min 5 (([((10:ℚ), (100:ℚ)), (20, 100)]).head (by simp)).1 :=
  claimC4_sumDeltas 5 100 [((10:ℚ), (100:ℚ)), (20, 100)] (by simp)
    (by simp)
    (by simp [List.chain'_cons]; norm_num)

/-- C7: no output field is ever defaulted: any key of a successful cycle's
snapshot other than `dateTime` / `usUnits` traces back to a present input
field of some record (contrapositive: input absent from all records means
output absent); and an input field present with the number 0 whose output
key has no other present writer passes through as 0, an entry distinct from
absence. -/
theorem claimC7_noDefaulting :
    (∀ (st : DriverState) (ts : ℚ) (conds : List Fields) (p' : Fields)
       (st' : DriverState) (k : String),
       processConditions st (initPacket ts) conds = .ok (p', st') →
       lookupField k p' ≠ none → k ≠ "dateTime" → k ≠ "usUnits" →
       ∃ c ∈ conds, ∃ i ∈ inputKeysFor k, lookupField i c ≠ none) ∧
    (∀ (st : DriverState) (p c p' : Fields) (st' : DriverState) (ty : ℚ)
       (src out : String),
       processCondition st p c = .ok (p', st') →
       lookupField "data_structure_type" c = some (some ty) →
       (src, out) ∈ mapsForType ty →
       lookupField src c = some (some 0) →
       (∀ sd ∈ mapsForType ty, sd.2 = out → sd.1 = src) →
       lookupField out p' = some (some 0)) := by
  constructor
  · intro st ts conds p' st' k hok h hk1 hk2
    rcases processConditions_ok_isSome conds st (initPacket ts) p' st' k hok h
      with hp | hfound
    · exfalso
      apply hp
      unfold initPacket
      simp [hk1, hk2]
    · exact hfound
  · intro st p c p' st' ty src out hok hty hmem hv honly
    exact processCondition_passthrough st p c p' st' ty src out (some 0)
      hok hty hmem hv honly

/-- C7 witness: both halves applied to concrete type-3 documents — a
`bar_absolute = 5` record traces the `pressure` output back to a present
input key, and a `bar_absolute = 0` record passes 0 through to `pressure`. -/
theorem claimC7_witness :
    (∃ c ∈ [[("data_structure_type", (some 3 : JVal)), ("bar_absolute", some 5)]],
       ∃ i ∈ inputKeysFor "pressure", lookupField i c ≠ none) ∧
    lookupField "pressure"
        [("pressure", (some 0 : JVal)), ("usUnits", some weewxUS),
         ("dateTime", some 0)] = some (some 0) :=
  ⟨claimC7_noDefaulting.1 initState 0
      [[("data_structure_type", (some 3 : JVal)), ("bar_absolute", some 5)]]
      [("pressure", some 5), ("usUnits", some weewxUS), ("dateTime", some 0)]
      initState "pressure" rfl (by simp) (by decide) (by decide),
   claimC7_noDefaulting.2 initState (initPacket 0)
      [("data_structure_type", some 3), ("bar_absolute", some 0)]
      [("pressure", some 0), ("usUnits", some weewxUS), ("dateTime", some 0)]
      initState 3 "bar_absolute" "pressure" rfl rfl (by decide) rfl (by decide)⟩

/-- C8: a record whose `data_structure_type` value is unrecognized
contributes no fields and leaves the state untouched (no exception is
raised), and a whole document processes exactly as the same document with
all such records removed. -/
theorem claimC8_unknownTypes :
    (∀ (st : DriverState) (p c : Fields) (v : JVal),
       lookupField "data_structure_type" c = some v → ¬ recognizedType v →
       processCondition st p c = .ok (p, st)) ∧
    (∀ (st : DriverState) (p : Fields) (conds : List Fields),
       processConditions st p (conds.filter keepCondition) =
         processConditions st p conds) :=
  ⟨processCondition_unknown, processConditions_filter⟩

/-- C8 witness: a record with discriminant 9 produces nothing, and a
two-record document (one unknown, one type-3) processes the same once the
unknown record is filtered away. -/
theorem claimC8_witness :
    processCondition initState [] [("data_structure_type", (some 9 : JVal))] =
      .ok ([], initState) ∧
    processConditions initState []
        ([[("data_structure_type", (some 9 : JVal))],
          [("data_structure_type", some 3), ("bar_absolute", some 5)]].filter
          keepCondition) =
      processConditions initState []
        [[("data_structure_type", (some 9 : JVal))],
         [("data_structure_type", some 3), ("bar_absolute", some 5)]] :=
  ⟨claimC8_unknownTypes.1 initState [] [("data_structure_type", (some 9 : JVal))]
      (some 9) rfl (by norm_num [recognizedType]),
   claimC8_unknownTypes.2 initState []
      [[("data_structure_type", (some 9 : JVal))],
       [("data_structure_type", some 3), ("bar_absolute", some 5)]]⟩

/-- C9: neither error kind terminates the polling loop and no snapshot is
emitted for a failed cycle: a transport failure sleeps exactly 2 seconds, a
malformed document sleeps the full poll interval, a document whose
processing raises sleeps the full poll interval, and the loop processes
every fetch outcome (one cycle per outcome, never exiting early). -/
theorem claimC9_errorHandling :
    (∀ (pI : ℚ) (st : DriverState),
       runCycle pI st .transportFailure = ⟨none, st, 2⟩) ∧
    (∀ (pI : ℚ) (st : DriverState),
       runCycle pI st (.payload .malformed) = ⟨none, st, pI⟩) ∧
    (∀ (pI ts : ℚ) (st : DriverState) (conds : List Fields)
       (stE : DriverState),
       processConditions st (initPacket ts) conds = .error stE →
       runCycle pI st (.payload (.wellFormed ts conds)) = ⟨none, stE, pI⟩) ∧
    (∀ (pI : ℚ) (st : DriverState) (fs : List FetchResult),
       (runLoop pI st fs).length = fs.length) := by
  refine ⟨fun pI st => rfl, fun pI st => rfl, ?_, runLoop_length⟩
  intro pI ts st conds stE h
  unfold runCycle
  dsimp only
  rw [h]

/-- C9 witness: the parse-failure conjunct applied to a document whose only
record lacks `data_structure_type`, with poll interval 10. -/
theorem claimC9_witness :
    runCycle 10 initState (.payload (.wellFormed 0 [[]])) =
      ⟨none, initState, 10⟩ :=
  claimC9_errorHandling.2.2.1 10 0 initState [[]] initState rfl

end WLL
